import Mathlib

/-!
Shallow embedding of the kafka broker layer of provisioning-backend
(package `kafka`, file `kafka.go`): SASL mechanism selection, broker
construction, the consume loop and the batched send operation.

External effects (file system reads, PEM parsing by `x509`, the scram
library constructor, the transport's write call, the sequence of results
returned by the reader) are modelled as explicit parameters, so every
function of the source becomes a pure Lean function of the code's inputs
plus those effect outcomes.  Byte sequences are modelled as `List Nat`.
-/

namespace Kafka

/-- Modelled from the spec: the application-level message header, an ordered
(string key, byte-sequence value) pair.  The `GenericMessage` model and its
codec live in a file of this repository that is not under `src/`; they are
modelled from the spec (sections 3, 4.3, 6). -/
structure GenericHeader where
  Key : String
  Value : List Nat
  deriving Repr, DecidableEq

/-- Modelled from the spec: the application-level unit of communication:
`Topic` (required), `Key` (opaque bytes, may be empty), `Value` (opaque
bytes), `Headers` (ordered key/value pairs). -/
structure GenericMessage where
  Topic : String
  Key : List Nat
  Value : List Nat
  Headers : List GenericHeader
  deriving Repr, DecidableEq

/-- Wire-format header of the underlying transport library
(`kafka.Header`): string key, byte-sequence value. -/
structure KafkaHeader where
  Key : String
  Value : List Nat
  deriving Repr, DecidableEq

/-- Wire-format message of the underlying transport library
(`kafka.Message`): topic, key, value, headers. -/
structure KafkaMessage where
  Topic : String
  Key : List Nat
  Value : List Nat
  Headers : List KafkaHeader
  deriving Repr, DecidableEq

/-- Modelled from the spec: `ToWire` — the codec direction
`GenericMessage -> kafka.Message` (the source's `GenericMessage.KafkaMessage`
method, in a repository file not under `src/`): Topic/Key/Value/Headers map
directly, zero-length Key/Value preserved as empty. -/
def GenericMessage.KafkaMessage (m : GenericMessage) : Kafka.KafkaMessage :=
  { Topic := m.Topic
    Key := m.Key
    Value := m.Value
    Headers := m.Headers.map fun h => { Key := h.Key, Value := h.Value } }

/-- Modelled from the spec: `FromWire` — the codec direction
`kafka.Message -> GenericMessage` (the source's `NewMessageFromKafka`, in a
repository file not under `src/`): topic, key and value copied verbatim,
along with the headers. -/
def NewMessageFromKafka (m : KafkaMessage) : GenericMessage :=
  { Topic := m.Topic
    Key := m.Key
    Value := m.Value
    Headers := m.Headers.map fun h => { Key := h.Key, Value := h.Value } }

/-!
The consume loop.  `Reader.ReadMessage` is external; its successive results
are modelled as a finite list of `ReadResult`s.  The loop body
(`kafka.go` lines 166-176) breaks when `errors.Is(err, io.EOF)`, logs a
warning and continues on every other error, and otherwise invokes the
handler on `NewMessageFromKafka(&msg)`.
-/

/-- Classification of an error returned by `Reader.ReadMessage`:
`io.EOF` (returned by kafka-go when the reader is closed / the message
channel is exhausted), `context.Canceled` (returned as `ctx.Err()` when the
governing context is cancelled mid-read), or any other transient read
error. -/
inductive ReadError where
  | eofErr : ReadError
  | canceledErr : ReadError
  | otherErr : String → ReadError
  deriving Repr, DecidableEq

/-- Outcome of one `errors.Is(err, io.EOF)` test, as the Go standard
library decides it: only `io.EOF` itself matches; `context.Canceled` is a
distinct sentinel error and does not match `io.EOF`, and an arbitrary
transient error does not either. -/
def ReadError.isEOF : ReadError → Bool
  | .eofErr => true
  | .canceledErr => false
  | .otherErr _ => false

/-- One result of `r.ReadMessage(ctx)`: either a wire message or an
error. -/
inductive ReadResult where
  | msg : KafkaMessage → ReadResult
  | err : ReadError → ReadResult
  deriving Repr, DecidableEq

/-- Observable outcome of running `Consume` against a finite trace of read
results: the messages passed to the handler (in invocation order), the
errors logged as warnings, whether the loop exited (broke out on EOF, so
the deferred `r.Close()` ran), and how many times the reader was closed. -/
structure ConsumeOutcome where
  handled : List GenericMessage
  warnings : List ReadError
  exited : Bool
  closeCount : Nat
  deriving Repr, DecidableEq

/-- Loop body of `Consume` (`kafka.go` lines 166-176) over a finite trace:
on `errors.Is(err, io.EOF)` break; on any other error record a warning and
continue; on success invoke the handler on `NewMessageFromKafka(&msg)` and
continue.  An exhausted trace means the loop is still blocked in
`ReadMessage`, so it has not exited. -/
def consumeLoop : List ReadResult → List GenericMessage × List ReadError × Bool
  | [] => ([], [], false)
  | .msg m :: rest =>
    let (h, w, e) := consumeLoop rest
    (NewMessageFromKafka m :: h, w, e)
  | .err er :: rest =>
    if er.isEOF then ([], [], true)
    else
      let (h, w, e) := consumeLoop rest
      (h, er :: w, e)

/-- The `Consume` method (`kafka.go` lines 161-177): creates a reader,
defers `r.Close()`, and runs the loop.  The deferred close runs exactly
when the function returns, i.e. when the loop has broken out. -/
def Consume (trace : List ReadResult) : ConsumeOutcome :=
  let (h, w, e) := consumeLoop trace
  { handled := h
    warnings := w
    exited := e
    closeCount := if e then 1 else 0 }

/-- Specification helper: the successful reads strictly preceding the first
EOF result of a trace, translated by the codec, in trace order. -/
def handledOfTrace (trace : List ReadResult) : List GenericMessage :=
  ((trace.takeWhile fun r => match r with
      | .err er => !er.isEOF
      | .msg _ => true).filterMap fun r => match r with
    | .msg m => some m
    | .err _ => none).map NewMessageFromKafka

/-- Specification helper: the non-EOF errors strictly preceding the first
EOF result of a trace, in trace order. -/
def warningsOfTrace (trace : List ReadResult) : List ReadError :=
  (trace.takeWhile fun r => match r with
      | .err er => !er.isEOF
      | .msg _ => true).filterMap fun r => match r with
    | .msg _ => none
    | .err er => some er

/-- Specification helper: whether a trace contains an EOF read result. -/
def traceHasEOF (trace : List ReadResult) : Bool :=
  trace.any fun r => match r with
    | .err er => er.isEOF
    | .msg _ => false

/-!
The batched `Send` operation (`kafka.go` lines 181-204).  The transport's
`w.WriteMessages(ctx, kMessages...)` call is external; its outcome is a
parameter `writeResult` mapping the submitted batch to `none` (success) or
`some e` (the transport error `e`).  The observable outcome records the
returned error, every publish call submitted to the transport, and whether
a writer was constructed and closed.
-/

/-- Error sentinel `DifferentTopicErr` of `kafka.go` line 32, rendered as
its message string. -/
def DifferentTopicErr : String := "messages in batch have different topics"

/-- Error sentinel `UnknownSaslMechanismErr` of `kafka.go` line 33,
rendered as its message string. -/
def UnknownSaslMechanismErr : String := "unknown SASL mechanism"

/-- Observable outcome of one `Send` call: the error returned to the
caller (`none` on success), the list of publish calls submitted to the
transport (each carrying one batch of wire messages), and whether the
per-call writer was constructed and closed. -/
structure SendOutcome where
  result : Option String
  publishCalls : List (List KafkaMessage)
  writerCreated : Bool
  writerClosed : Bool
  deriving Repr, DecidableEq

/-- Topic-check-and-translate loop of `Send` (`kafka.go` lines 191-196):
each message's topic is compared against the first message's topic; the
first mismatch aborts with `DifferentTopicErr`, otherwise every message is
translated via `GenericMessage.KafkaMessage`. -/
def buildBatch (commonTopic : String) : List GenericMessage → Except String (List KafkaMessage)
  | [] => .ok []
  | m :: rest =>
    if m.Topic ≠ commonTopic then .error DifferentTopicErr
    else (buildBatch commonTopic rest).map (m.KafkaMessage :: ·)

/-- The `Send` method (`kafka.go` lines 181-204): an empty batch returns
success immediately, before the writer is constructed; otherwise a writer
scoped to the call is created (and closed by defer on every return path),
the batch is checked and translated, a mixed-topic batch returns
`DifferentTopicErr` before any publish call, and an all-same-topic batch is
submitted in exactly one `WriteMessages` call whose failure is wrapped with
operation context. -/
def Send (writeResult : List KafkaMessage → Option String)
    (messages : List GenericMessage) : SendOutcome :=
  match messages with
  | [] =>
    { result := none, publishCalls := [], writerCreated := false, writerClosed := false }
  | m0 :: rest =>
    let commonTopic := m0.Topic
    match buildBatch commonTopic (m0 :: rest) with
    | .error e =>
      { result := some e, publishCalls := [], writerCreated := true, writerClosed := true }
    | .ok kMessages =>
      match writeResult kMessages with
      | some e =>
        { result := some ("cannot send kafka messages(s): " ++ e)
          publishCalls := [kMessages], writerCreated := true, writerClosed := true }
      | none =>
        { result := none
          publishCalls := [kMessages], writerCreated := true, writerClosed := true }

/-!
Broker construction (`kafka.go` lines 36-120).  External effects:
`ioutil.ReadFile` (after `filepath.Clean`), `x509.CertPool.AppendCertsFromPEM`
(which parses the PEM bundle and returns which certificates it added — the
source discards its boolean result), and the scram library constructor
`scram.Mechanism` (which can fail on malformed credentials).  These are
bundled into a `KafkaEnv` parameter.
-/

/-- An X.509 certificate as parsed out of a PEM bundle, identified by its
DER bytes. -/
structure Cert where
  der : List Nat
  deriving Repr, DecidableEq

/-- SCRAM hash algorithm selector (`scram.SHA256` / `scram.SHA512`). -/
inductive ScramAlgo where
  | sha256 : ScramAlgo
  | sha512 : ScramAlgo
  deriving Repr, DecidableEq

/-- A constructed SASL mechanism value (`sasl.Mechanism`): either a
`plain.Mechanism` with the given credentials or a scram mechanism built by
the scram library for the given algorithm and credentials. -/
inductive SaslMechanism where
  | plain : String → String → SaslMechanism
  | scram : ScramAlgo → String → String → SaslMechanism
  deriving Repr, DecidableEq

/-- External-effect outcomes consumed by broker construction:
`cleanPath` is `filepath.Clean`; `readFile` is `ioutil.ReadFile` returning
file bytes or an error; `parsePEMCerts` is the set of certificates
`x509.CertPool.AppendCertsFromPEM` successfully parses from the bytes (an
empty list when nothing in the file parses as a PEM certificate — the
library then returns `false`, which the source ignores); `scramError` is
the error, if any, of the external `scram.Mechanism` constructor for the
given algorithm and credentials; `toLower` is `strings.ToLower`, Go's
Unicode-aware (simple case mapping) lowercasing of a string. -/
structure KafkaEnv where
  cleanPath : String → String
  readFile : String → Except String (List Nat)
  parsePEMCerts : List Nat → List Cert
  scramError : ScramAlgo → String → String → Option String
  toLower : String → String

/-- SASL block of the configuration (`config.Kafka.SASL`): mechanism name,
username, password. -/
structure SASLConfig where
  SaslMechanism : String
  Username : String
  Password : String
  deriving Repr, DecidableEq

/-- Kafka block of the configuration (`config.Kafka`): broker address
list, optional CA certificate path (empty string when absent), SASL
settings. -/
structure KafkaConfig where
  Brokers : List String
  CACert : String
  SASL : SASLConfig
  deriving Repr, DecidableEq

/-- A `tls.Config` as the source builds it: minimum TLS version 1.3
(`tls.VersionTLS13 = 772`) and the root CA pool. -/
structure TLSConfig where
  MinVersion : Nat
  RootCAs : List Cert
  deriving Repr, DecidableEq

/-- Client identifier attached to every connection
(`version.KafkaClientID`, defined in a repository file not under `src/`;
its concrete value does not matter to any claim). -/
def KafkaClientID : String := "provisioning-backend"

/-- The subscribe-oriented connection descriptor (`kafka.Dialer`) the
source builds: client id, 10-second timeout, optional SASL mechanism and
optional TLS configuration. -/
structure Dialer where
  ClientID : String
  TimeoutSeconds : Nat
  SASLMechanism : Option SaslMechanism
  TLS : Option TLSConfig
  deriving Repr, DecidableEq

/-- The publish-oriented connection descriptor (`kafka.Transport`) the
source builds: client id, optional TLS configuration and optional SASL
mechanism. -/
structure Transport where
  ClientID : String
  TLS : Option TLSConfig
  SASL : Option SaslMechanism
  deriving Repr, DecidableEq

/-- The broker value (`kafkaBroker`, `kafka.go` lines 24-27) holding the
two connection descriptors. -/
structure kafkaBroker where
  dialer : Dialer
  transport : Transport
  deriving Repr, DecidableEq

/-- The `createSASLMechanism` function (`kafka.go` lines 36-59): the name
is lowercased by `strings.ToLower` (the external `env.toLower`) and matched
against `plain`, `scram-sha-512`, `scram-sha-256`; scram construction
failures are wrapped; any other name yields `UnknownSaslMechanismErr`
formatted with the offending name. -/
def createSASLMechanism (env : KafkaEnv) (saslMechanismName username password : String) :
    Except String SaslMechanism :=
  match env.toLower saslMechanismName with
  | "plain" => .ok (.plain username password)
  | "scram-sha-512" =>
    match env.scramError .sha512 username password with
    | some e => .error ("unable to create scram-sha-512 mechanism: " ++ e)
    | none => .ok (.scram .sha512 username password)
  | "scram-sha-256" =>
    match env.scramError .sha256 username password with
    | some e => .error ("unable to create scram-sha-256 mechanism: " ++ e)
    | none => .ok (.scram .sha256 username password)
  | _ => .error (UnknownSaslMechanismErr ++ ": " ++ saslMechanismName)

/-- The `NewKafkaBroker` function (`kafka.go` lines 72-120).  When a CA
path is configured the file is read (read failure is returned wrapped);
the bytes are handed to `AppendCertsFromPEM`, whose boolean result the
source discards, so the pool holds whatever certificates parsed — possibly
none.  When a SASL mechanism name is configured it is built via
`createSASLMechanism` (failure returned wrapped).  Then the dialer and
transport are assembled and the broker returned. -/
def NewKafkaBroker (env : KafkaEnv) (cfg : KafkaConfig) : Except String kafkaBroker :=
  let tlsStep : Except String (Option TLSConfig) :=
    if cfg.CACert ≠ "" then
      match env.readFile (env.cleanPath cfg.CACert) with
      | .error e => .error ("unable to read kafka CA cert: " ++ e)
      | .ok pemCerts =>
        .ok (some { MinVersion := 772, RootCAs := env.parsePEMCerts pemCerts })
    else .ok none
  match tlsStep with
  | .error e => .error e
  | .ok tlsConfig =>
    let saslStep : Except String (Option SaslMechanism) :=
      if cfg.SASL.SaslMechanism ≠ "" then
        match createSASLMechanism env cfg.SASL.SaslMechanism cfg.SASL.Username cfg.SASL.Password with
        | .error e => .error ("kafka SASL error: " ++ e)
        | .ok m => .ok (some m)
      else .ok none
    match saslStep with
    | .error e => .error e
    | .ok saslMechanism =>
      .ok
        { dialer :=
            { ClientID := KafkaClientID, TimeoutSeconds := 10
              SASLMechanism := saslMechanism, TLS := tlsConfig }
          transport :=
            { ClientID := KafkaClientID, TLS := tlsConfig, SASL := saslMechanism } }

/-- Package-level mutable state of the `kafka` package: the `broker`
variable holding the active broker handle (`nil` modelled as `none`). -/
structure PackageState where
  broker : Option kafkaBroker
  deriving Repr, DecidableEq

/-- The `InitializeKafkaBroker` function (`kafka.go` lines 62-70): the
multi-assignment `broker, err = NewKafkaBroker()` stores the returned
broker value — the `nil` interface value when construction failed — into
the package-level variable before the error check, and the error is then
returned wrapped. -/
def InitializeKafkaBroker (env : KafkaEnv) (cfg : KafkaConfig) (st : PackageState) :
    PackageState × Option String :=
  match NewKafkaBroker env cfg with
  | .ok b => (⟨some b⟩, none)
  | .error e => (⟨none⟩, some ("unable to initialize kafka: " ++ e))

/-!
Concrete demonstration values shared by witnesses and counterexample-style
evaluations.
-/

/-- A concrete wire message used in concrete evaluations. -/
def demoWireMsg : KafkaMessage := ⟨"notifications", [107], [118, 49], []⟩

/-- A concrete effect environment: the only readable file is
`/etc/kafka/ca.pem`, whose bytes contain no parseable PEM certificate;
scram construction always succeeds; the lowering agrees with
`strings.ToLower` on the pure-ASCII names used below. -/
def envDemo : KafkaEnv :=
  { cleanPath := id
    readFile := fun p =>
      if p = "/etc/kafka/ca.pem" then .ok [110, 111, 116, 32, 97, 32, 99, 101, 114, 116]
      else .error "open: no such file or directory"
    parsePEMCerts := fun _ => []
    scramError := fun _ _ _ => none
    toLower := fun s => ⟨s.data.map Char.toLower⟩ }

/-- A concrete configuration with a CA path and no SASL. -/
def cfgWithCACert : KafkaConfig := ⟨["broker:9092"], "/etc/kafka/ca.pem", ⟨"", "", ""⟩⟩

/-- A concrete configuration with an unrecognized SASL mechanism name. -/
def cfgGssapi : KafkaConfig := ⟨["broker:9092"], "", ⟨"GSSAPI", "user", "pass"⟩⟩

/-- A concrete broker value standing for a previously stored handle. -/
def demoBroker : kafkaBroker :=
  { dialer := ⟨KafkaClientID, 10, none, none⟩
    transport := ⟨KafkaClientID, none, none⟩ }

/-!
Helper lemmas.
-/

/-- Characterization of the consume loop over a finite trace: the handled
messages are the codec images of the successful reads before the first EOF,
the warnings are the non-EOF errors before the first EOF, and the loop has
exited exactly when the trace contains an EOF. -/
theorem consumeLoop_eq (trace : List ReadResult) :
    consumeLoop trace = (handledOfTrace trace, warningsOfTrace trace, traceHasEOF trace) := by
  induction trace with
  | nil => rfl
  | cons r rest ih =>
    cases r with
    | msg m =>
      simp [consumeLoop, ih, handledOfTrace, warningsOfTrace, traceHasEOF,
        List.takeWhile_cons, List.filterMap_cons, List.any_cons, List.map_cons]
    | err er =>
      by_cases h : er.isEOF
      · simp only [consumeLoop, h, if_true, handledOfTrace, warningsOfTrace, traceHasEOF,
          List.takeWhile_cons, List.any_cons, h, Bool.not_true, Bool.true_or]
        simp [h]
      · simp only [consumeLoop, h, if_false, ih, handledOfTrace, warningsOfTrace, traceHasEOF,
          List.takeWhile_cons, List.filterMap_cons, List.any_cons]
        simp [h]

/-- If every message of the batch has topic `t`, the check-and-translate
loop succeeds with the codec image of the batch. -/
theorem buildBatch_ok_of_same_topic (t : String) (l : List GenericMessage)
    (h : ∀ m ∈ l, m.Topic = t) :
    buildBatch t l = .ok (l.map GenericMessage.KafkaMessage) := by
  induction l with
  | nil => rfl
  | cons m rest ih =>
    have hm : m.Topic = t := h m (List.mem_cons_self m rest)
    have hr := ih fun x hx => h x (List.mem_cons_of_mem _ hx)
    simp [buildBatch, hm, hr, Except.map]

/-- If some message of the batch has a topic other than `t`, the
check-and-translate loop aborts with `DifferentTopicErr`. -/
theorem buildBatch_error_of_mismatch (t : String) (l : List GenericMessage)
    (h : ∃ m ∈ l, m.Topic ≠ t) :
    buildBatch t l = .error DifferentTopicErr := by
  induction l with
  | nil => simp at h
  | cons m rest ih =>
    by_cases hm : m.Topic = t
    · obtain ⟨x, hx, hxt⟩ := h
      rcases List.mem_cons.mp hx with rfl | hx'
      · exact absurd hm hxt
      · have hr := ih ⟨x, hx', hxt⟩
        simp [buildBatch, hm, hr, Except.map]
    · simp [buildBatch, hm]

/-- Mapping a header list through the identity reconstruction returns the
same list. -/
theorem genericHeader_map_eta (l : List GenericHeader) :
    (l.map fun x => (⟨x.Key, x.Value⟩ : GenericHeader)) = l := by
  induction l with
  | nil => rfl
  | cons a t ih => simp [ih]

/-!
Claim theorems.
-/

/-- C5: decoding the encoding of a message is the identity: for all byte
sequences `k`, `v` (including empty) and header lists `h`,
`FromWire (ToWire {topic := "t", key := k, value := v, headers := h})`
equals the original message. -/
theorem c5_codec_round_trip (k v : List Nat) (h : List GenericHeader) :
    NewMessageFromKafka (GenericMessage.KafkaMessage ⟨"t", k, v, h⟩) = ⟨"t", k, v, h⟩ := by
  simp only [GenericMessage.KafkaMessage, NewMessageFromKafka, List.map_map,
    GenericMessage.mk.injEq, true_and]
  exact genericHeader_map_eta h

/-- C6: over any finite trace of read results, the consume loop invokes the
handler exactly once for each successful read preceding the first
end-of-stream result, in trace order (the sequential loop reads the next
result only after the handler application), and every non-EOF read error is
logged as a warning and skipped without terminating the loop, so later
successful reads are still delivered. -/
theorem c6_consume_handler_invocations (trace : List ReadResult) :
    (Consume trace).handled = handledOfTrace trace ∧
    (Consume trace).warnings = warningsOfTrace trace := by
  simp [Consume, consumeLoop_eq]

/-- C8: the consume loop exits exactly when the trace contains an
end-of-stream result; on exit the reader has been closed exactly once and
the handler has not been invoked for any read at or after the EOF; while
the loop has not exited the reader has not been closed (so it is neither
leaked by an exit nor closed twice). -/
theorem c8_consume_eof_exit_close_once (trace : List ReadResult) :
    (Consume trace).exited = traceHasEOF trace ∧
    (Consume trace).closeCount = (if traceHasEOF trace then 1 else 0) ∧
    (Consume trace).handled = handledOfTrace trace := by
  simp [Consume, consumeLoop_eq]

/-- C2: evaluation at the failing trace.  A read that returns the
cancellation error (`context.Canceled`, which does not satisfy
`errors.Is(err, io.EOF)`) is NOT treated like end-of-stream: the loop logs
it as a warning and continues, the handler is invoked again for the next
successful read, the loop has not exited and the reader has not been
released — contradicting the claim that cancellation exits the loop
cleanly. -/
theorem c2_cancellation_error_does_not_exit :
    Consume [.err .canceledErr, .msg demoWireMsg] =
      { handled := [NewMessageFromKafka demoWireMsg]
        warnings := [.canceledErr], exited := false, closeCount := 0 } := rfl

/-- C10: sending the empty batch returns success without constructing a
writer and without submitting any publish call. -/
theorem c10_empty_send_is_noop (wr : List KafkaMessage → Option String) :
    Send wr [] =
      { result := none, publishCalls := [], writerCreated := false
        writerClosed := false } := rfl

/-- C3: for every non-empty batch containing a message whose topic differs
from the first message's topic, `Send` returns `DifferentTopicErr` with no
publish call submitted (the per-call writer was created and closed, but the
transport was never asked to publish anything). -/
theorem c3_mixed_topics_rejected_before_publish
    (wr : List KafkaMessage → Option String) (m0 : GenericMessage)
    (rest : List GenericMessage) (h : ∃ m ∈ m0 :: rest, m.Topic ≠ m0.Topic) :
    Send wr (m0 :: rest) =
      { result := some DifferentTopicErr, publishCalls := []
        writerCreated := true, writerClosed := true } := by
  simp [Send, buildBatch_error_of_mismatch m0.Topic (m0 :: rest) h]

/-- C3 witness: a concrete two-message batch with distinct topics. -/
theorem c3_mixed_topics_rejected_before_publish_witness :
    Send (fun _ => none) [⟨"orders", [1], [2], []⟩, ⟨"payments", [3], [4], []⟩] =
      { result := some DifferentTopicErr, publishCalls := []
        writerCreated := true, writerClosed := true } :=
  c3_mixed_topics_rejected_before_publish (fun _ => none) ⟨"orders", [1], [2], []⟩
    [⟨"payments", [3], [4], []⟩] ⟨⟨"payments", [3], [4], []⟩, by decide, by decide⟩

/-- C7: for every non-empty all-same-topic batch, `Send` submits exactly
one publish call carrying the codec image of the batch in input order, and
returns success when the transport succeeds, or the transport error wrapped
with operation context when it fails (one call either way — no retry); the
per-call writer is closed. -/
theorem c7_same_topic_single_publish
    (wr : List KafkaMessage → Option String) (m0 : GenericMessage)
    (rest : List GenericMessage) (h : ∀ m ∈ m0 :: rest, m.Topic = m0.Topic) :
    (Send wr (m0 :: rest)).publishCalls = [(m0 :: rest).map GenericMessage.KafkaMessage] ∧
    (Send wr (m0 :: rest)).result =
      ((wr ((m0 :: rest).map GenericMessage.KafkaMessage)).map
        fun e => "cannot send kafka messages(s): " ++ e) ∧
    (Send wr (m0 :: rest)).writerClosed = true := by
  have hb := buildBatch_ok_of_same_topic m0.Topic (m0 :: rest) h
  simp only [List.map_cons] at hb
  cases hw : wr (m0.KafkaMessage :: rest.map GenericMessage.KafkaMessage) <;>
    simp [Send, hb, hw, List.map_cons]

/-- C7 witness: two concrete messages on topic `orders` with a succeeding
transport: one publish call carrying their exact wire images. -/
theorem c7_same_topic_single_publish_witness :
    (Send (fun _ => none) [⟨"orders", [1], [2], [⟨"trace", [9]⟩]⟩, ⟨"orders", [3, 0], [], []⟩]).publishCalls =
      [[⟨"orders", [1], [2], [⟨"trace", [9]⟩]⟩, ⟨"orders", [3, 0], [], []⟩]] ∧
    (Send (fun _ => none) [⟨"orders", [1], [2], [⟨"trace", [9]⟩]⟩, ⟨"orders", [3, 0], [], []⟩]).result = none := by
  have h := c7_same_topic_single_publish (fun _ => none)
    ⟨"orders", [1], [2], [⟨"trace", [9]⟩]⟩ [⟨"orders", [3, 0], [], []⟩] (by decide)
  exact ⟨by simpa [GenericMessage.KafkaMessage] using h.1, by simpa using h.2.1⟩

/-- C1: evaluation at the failing input.  The CA path points at a readable
file whose bytes contain no parseable PEM certificate
(`AppendCertsFromPEM` adds nothing and returns `false`, which the source
discards), yet `NewKafkaBroker` returns a broker whose trust pool
(`RootCAs`) is empty instead of returning an error — contradicting the
claim that every readable-but-unparseable CA file fails construction. -/
theorem c1_unparseable_pem_produces_broker :
    envDemo.readFile (envDemo.cleanPath cfgWithCACert.CACert) =
      .ok [110, 111, 116, 32, 97, 32, 99, 101, 114, 116] ∧
    envDemo.parsePEMCerts [110, 111, 116, 32, 97, 32, 99, 101, 114, 116] = [] ∧
    NewKafkaBroker envDemo cfgWithCACert =
      .ok { dialer := ⟨KafkaClientID, 10, none, some ⟨772, []⟩⟩
            transport := ⟨KafkaClientID, some ⟨772, []⟩, none⟩ } :=
  ⟨rfl, rfl, rfl⟩

/-- C4: the SASL mechanism name is matched case-insensitively, i.e. by its
`strings.ToLower` image (the external `env.toLower`, quantified here, so
the statement holds in particular for Go's Unicode-aware lowering): a name
whose lowercase form is `plain` always succeeds, the two scram forms
succeed whenever the external scram constructor succeeds, and a name whose
lowercase form is none of the three makes `createSASLMechanism` return the
unknown-mechanism error carrying the offending name; consequently a
configuration with a non-empty such mechanism name (and no CA read failure
masking it) makes `NewKafkaBroker` fail with that error wrapped. -/
theorem c4_sasl_mechanism_name_matching (env : KafkaEnv) (cfg : KafkaConfig)
    (name u p : String) :
    (env.toLower name = "plain" →
      createSASLMechanism env name u p = .ok (.plain u p)) ∧
    (env.toLower name = "scram-sha-256" → env.scramError .sha256 u p = none →
      createSASLMechanism env name u p = .ok (.scram .sha256 u p)) ∧
    (env.toLower name = "scram-sha-512" → env.scramError .sha512 u p = none →
      createSASLMechanism env name u p = .ok (.scram .sha512 u p)) ∧
    (env.toLower name ≠ "plain" → env.toLower name ≠ "scram-sha-256" → env.toLower name ≠ "scram-sha-512" →
      createSASLMechanism env name u p = .error (UnknownSaslMechanismErr ++ ": " ++ name)) ∧
    (name ≠ "" → env.toLower name ≠ "plain" → env.toLower name ≠ "scram-sha-256" →
      env.toLower name ≠ "scram-sha-512" → cfg.SASL = ⟨name, u, p⟩ →
      (cfg.CACert = "" ∨ ∃ bs, env.readFile (env.cleanPath cfg.CACert) = Except.ok bs) →
      NewKafkaBroker env cfg =
        .error ("kafka SASL error: " ++ (UnknownSaslMechanismErr ++ ": " ++ name))) := by
  have hdefault : env.toLower name ≠ "plain" → env.toLower name ≠ "scram-sha-256" →
      env.toLower name ≠ "scram-sha-512" →
      createSASLMechanism env name u p = .error (UnknownSaslMechanismErr ++ ": " ++ name) := by
    intro h1 h2 h3
    unfold createSASLMechanism
    split <;> simp_all
  refine ⟨?_, ?_, ?_, hdefault, ?_⟩
  · intro h
    unfold createSASLMechanism
    rw [h]
    rfl
  · intro h hs
    unfold createSASLMechanism
    rw [h]
    simp [hs]
  · intro h hs
    unfold createSASLMechanism
    rw [h]
    simp [hs]
  · intro hne h1 h2 h3 hsasl hca
    have hmech := hdefault h1 h2 h3
    unfold NewKafkaBroker
    rcases hca with hempty | ⟨bs, hbs⟩
    · simp [hempty, hsasl, hne, hmech]
    · by_cases hc : cfg.CACert = ""
      · simp [hc, hsasl, hne, hmech]
      · simp [hc, hbs, hsasl, hne, hmech]

/-- C4 witness: the uppercase form `PLAIN` is accepted, and the
unrecognized name `GSSAPI` makes broker construction fail with the
unknown-mechanism error naming it. -/
theorem c4_sasl_mechanism_name_matching_witness :
    createSASLMechanism envDemo "PLAIN" "user" "pass" = .ok (.plain "user" "pass") ∧
    NewKafkaBroker envDemo cfgGssapi =
      .error "kafka SASL error: unknown SASL mechanism: GSSAPI" := by
  constructor
  · exact (c4_sasl_mechanism_name_matching envDemo cfgGssapi "PLAIN" "user" "pass").1 (by decide)
  · have h := (c4_sasl_mechanism_name_matching envDemo cfgGssapi "GSSAPI" "user" "pass").2.2.2.2
      (by decide) (by decide) (by decide) (by decide) rfl (Or.inl rfl)
    simpa using h

/-- C9: whenever `NewKafkaBroker` fails, `InitializeKafkaBroker` still
stores the returned nil broker value into the package-level variable before
returning the wrapped error: whatever broker handle was stored before, the
state after a failed re-initialization holds no broker. -/
theorem c9_failed_init_overwrites_global_broker (env : KafkaEnv) (cfg : KafkaConfig)
    (st : PackageState) (e : String) (h : NewKafkaBroker env cfg = .error e) :
    InitializeKafkaBroker env cfg st =
      (⟨none⟩, some ("unable to initialize kafka: " ++ e)) := by
  simp [InitializeKafkaBroker, h]

/-- C9 witness: a failed re-initialization (unknown SASL mechanism) clears
a previously stored broker handle. -/
theorem c9_failed_init_overwrites_global_broker_witness :
    InitializeKafkaBroker envDemo cfgGssapi ⟨some demoBroker⟩ =
      (⟨none⟩, some "unable to initialize kafka: kafka SASL error: unknown SASL mechanism: GSSAPI") := by
  have h := c9_failed_init_overwrites_global_broker envDemo cfgGssapi ⟨some demoBroker⟩
    "kafka SASL error: unknown SASL mechanism: GSSAPI" rfl
  simpa using h

end Kafka
